import Mathlib

/-!
# Post controller of the SpeakWave server

A shallow embedding of `src/server/controller/post.controller.js`.

Every handler is a function of the outcomes of its awaited external calls (`Env`),
the request (`Req`) and the stored collections (`Db`).  It returns the reply sent to
the client, the collections afterwards, and the list of external calls it issued, in
the order in which it issued them (`Outcome`).

Conventions.
* Document ids (`ObjectId`) are natural numbers.  The route parameter `req.params.id`
  is a raw path segment (`ParamId`) that need not cast to one: `postModel.findById`
  then rejects with `CastError`.  `req.user.id` is set by the authentication middleware
  from the token the server issued and is a document id.
* `numberOfRepost` and `createdAt` are natural numbers (the counter stays far below
  the range in which a JavaScript number stops being an exact integer).
* A write that rejects leaves the stored collections as they were.
-/

namespace Threads

/-! ## Values and documents -/

/-- Document identifier. -/
abbrev Id := Nat

/-- The raw `req.params.id` of a route: a path segment that either casts to a document
identifier or does not. -/
inductive ParamId where
  | oid (id : Id)
  | malformed (raw : String)
  deriving DecidableEq, Repr

/-- A numeral denotes the well-formed identifier with that value. -/
instance (n : Nat) : OfNat ParamId n := ⟨.oid n⟩

/-- What an awaited `findById` on a route parameter produces: a rejection with
`CastError` when the parameter does not cast to a document identifier, `null` when no
document has the identifier, or the document. -/
inductive Lookup (α : Type) where
  | castError
  | null
  | doc (d : α)
  deriving DecidableEq, Repr

/-- JavaScript values that a field of `req.body` can hold. -/
inductive JsVal where
  | undefined
  | null
  | bool (b : Bool)
  | num (n : Int)
  | str (s : String)
  | object
  deriving DecidableEq, Repr

/-- JavaScript truthiness, as tested by `if (v)` and `!v`. -/
def JsVal.truthy : JsVal → Bool
  | .undefined => false
  | .null => false
  | .bool b => b
  | .num n => n != 0
  | .str s => s != ""
  | .object => true

/-- The media reference stored on a post: `thumbnail = {}` in `createPost`, with
`public_id` and `secure_url` filled in after an upload. -/
structure Thumbnail where
  public_id : Option String
  secure_url : Option String
  deriving DecidableEq, Repr

/-- The empty object `{}`. -/
def Thumbnail.empty : Thumbnail := ⟨none, none⟩

/-- Modelled from the spec: the Post schema (`model/post.model.js` is not part of the
sources).  The fields are those of the data model of the spec together with `title`
and `description`, which `editPost` assigns. -/
structure Post where
  id : Id
  content : JsVal
  title : JsVal
  description : JsVal
  thumbnail : Thumbnail
  postedBy : Id
  numberOfRepost : Nat
  comments : List Id
  reactions : List Id
  createdAt : Nat
  deriving DecidableEq, Repr

/-- Modelled from the spec: the User schema (`model/user.model.js` is not part of the
sources), restricted to the fields the post controller reads or writes. -/
structure User where
  id : Id
  username : String
  avatar : Thumbnail
  following : List Id
  repost : List Id
  deriving DecidableEq, Repr

/-- Modelled from the spec: a Comment document. -/
structure Comment where
  id : Id
  text : String
  commentedBy : Id
  deriving DecidableEq, Repr

/-- Modelled from the spec: a Reaction document. -/
structure Reaction where
  id : Id
  kind : String
  reactedBy : Id
  deriving DecidableEq, Repr

/-- The stored collections. -/
structure Db where
  users : List User
  posts : List Post
  comments : List Comment
  reactions : List Reaction
  deriving DecidableEq, Repr

/-- The file multer attaches to the request as `req.file`. -/
structure UploadedFile where
  mimetype : String
  path : String
  filename : String
  deriving DecidableEq, Repr

/-- The parts of the request the handlers read: `req.user.id`, `req.params.id`,
`req.body.content`, `req.body.title`, `req.body.description` and `req.file`. -/
structure Req where
  userId : Id
  id : ParamId
  content : JsVal
  title : JsVal
  description : JsVal
  file : Option UploadedFile
  deriving DecidableEq, Repr

/-! ## External calls and their outcomes -/

/-- What `cloudinary.v2.uploader.upload` produced. -/
inductive UploadResult where
  | throws
  | falsy
  | ok (public_id secure_url : String)
  deriving DecidableEq, Repr

/-- The calls a handler issues on the database, the media delegate and the file
system. -/
inductive Effect where
  | findUserById (id : Id)
  | findPostById (id : ParamId)
  | findAllPosts
  | findPostsIn (path : String) (ids : List Id)
  | create (content : JsVal) (thumbnail : Thumbnail) (postedBy : Id)
  | savePost (p : Post)
  | saveUser (u : User)
  | findByIdAndDelete (id : ParamId)
  | upload (path folder : String) (resourceType : Option String)
  | destroy (publicId : Option String)
  | rm (path : String)
  deriving DecidableEq, Repr

/-- Calls that write to a stored collection. -/
def Effect.isWrite : Effect → Bool
  | .create _ _ _ => true
  | .savePost _ => true
  | .saveUser _ => true
  | .findByIdAndDelete _ => true
  | _ => false

/-- Calls on the media delegate. -/
def Effect.isMedia : Effect → Bool
  | .upload _ _ _ => true
  | .destroy _ => true
  | _ => false

/-- Removal of a local temporary file. -/
def Effect.isRm : Effect → Bool
  | .rm _ => true
  | _ => false

/-- Queries on the post collection that return a list. -/
def Effect.isPostQuery : Effect → Bool
  | .findAllPosts => true
  | .findPostsIn _ _ => true
  | _ => false

/-- The outcomes of the awaited external calls of one request.  `upload` and `destroy`
are the media delegate (`destroy` is `true` when the call resolves); the four `…Ok`
flags say whether the corresponding database write resolves; `newId` and `now` are the
identifier and the creation time the database gives a new document; `strictQuery` is the
Mongoose setting that removes from a filter the paths the schema does not declare. -/
structure Env where
  upload : String → String → Option String → UploadResult
  destroy : Option String → Bool
  createOk : Bool
  postSaveOk : Bool
  userSaveOk : Bool
  deleteOk : Bool
  newId : Id
  now : Nat
  strictQuery : Bool

/-- The author fields joined in by `populate("postedBy", "username avatar")`. -/
structure Author where
  id : Id
  username : String
  avatar : Thumbnail
  deriving DecidableEq, Repr

/-- A post with `postedBy` populated. -/
structure PostView where
  post : Post
  postedBy : Option Author
  deriving DecidableEq, Repr

/-- A post with comments, reactions and author populated, as `getPost` returns it. -/
structure PostDetail where
  post : Post
  comments : List (Comment × Option Author)
  reactions : List (Reaction × Option Author)
  postedBy : Option Author
  deriving DecidableEq, Repr

/-- The entity carried by a success response. -/
inductive Payload where
  | none
  | post (p : Post)
  | detail (p : PostDetail)
  | posts (ps : List PostView)
  deriving DecidableEq, Repr

/-- How a handler ends: `res.status(s).json(..)`, `next(new AppError(message, status))`,
or an awaited call that rejected outside every `try`, which `asyncHandler` receives. -/
inductive Reply where
  | json (status : Nat) (message : String) (payload : Payload)
  | appError (message : String) (statusCode : Nat)
  | uncaught
  deriving DecidableEq, Repr

/-- The HTTP status carried by a reply, when the handler itself chose one. -/
def Reply.status? : Reply → Option Nat
  | .json s _ _ => some s
  | .appError _ s => some s
  | .uncaught => none

/-- Result of running a handler. -/
structure Outcome where
  reply : Reply
  db : Db
  effects : List Effect
  deriving DecidableEq, Repr

/-! ## The database -/

/-- The call `userModel.findById(id)`. -/
def Db.findUser (db : Db) (id : Id) : Option User :=
  db.users.find? (fun u => u.id == id)

/-- The call `postModel.findById(id)` on the route parameter: the cast of a malformed
parameter rejects before any document is looked up. -/
def Db.findPost (db : Db) : ParamId → Lookup Post
  | .malformed _ => .castError
  | .oid id =>
    match db.posts.find? (fun p => p.id == id) with
    | some p => .doc p
    | none => .null

/-- The call `user.save()` when it resolves: the stored document with this id is
replaced. -/
def Db.saveUser (db : Db) (u : User) : Db :=
  { db with users := db.users.map (fun v => if v.id == u.id then u else v) }

/-- The call `post.save()` when it resolves. -/
def Db.savePost (db : Db) (p : Post) : Db :=
  { db with posts := db.posts.map (fun q => if q.id == p.id then p else q) }

/-- The call `postModel.findByIdAndDelete(id)` when it resolves.  The handler reaches it
only after `findById` returned a document for the same parameter. -/
def Db.deletePost (db : Db) : ParamId → Db
  | .oid id => { db with posts := db.posts.filter (fun q => !(q.id == id)) }
  | .malformed _ => db

/-- The call `postModel.create(..)` when it resolves: a new document with the schema
defaults is appended. -/
def Db.insertPost (db : Db) (p : Post) : Db :=
  { db with posts := db.posts ++ [p] }

/-- Modelled from the spec: the paths the Post schema declares (`model/post.model.js`
is not part of the sources): the fields of `Post`.  There is no path `user`. -/
def postSchemaPaths : List String :=
  ["content", "title", "description", "thumbnail", "postedBy", "numberOfRepost",
   "comments", "reactions", "createdAt"]

/-- The user reference a post document holds at `path`; `postedBy` is the only path of
a post that holds one. -/
def Post.refAt (p : Post) (path : String) : Option Id :=
  if path = "postedBy" then some p.postedBy else none

/-- The query `postModel.find` with the filter `path: $in ids`.  Under `strictQuery` a path the
schema does not declare is removed from the filter, which then matches every document;
otherwise a document matches when its value at `path` is one of `ids`. -/
def Db.findPostsIn (db : Db) (strictQuery : Bool) (path : String) (ids : List Id) :
    List Post :=
  if strictQuery && !(postSchemaPaths.contains path) then db.posts
  else db.posts.filter (fun p =>
    match p.refAt path with
    | some v => ids.contains v
    | none => false)

/-- The cursor modifier `.sort` on `createdAt: -1`. -/
def sortCreatedAtDesc (ps : List Post) : List Post :=
  ps.insertionSort (fun a b => b.createdAt ≤ a.createdAt)

/-- The fields `username avatar` of the user with this id. -/
def Db.author (db : Db) (id : Id) : Option Author :=
  (db.findUser id).map (fun u => ⟨u.id, u.username, u.avatar⟩)

/-- The join `.populate("postedBy", "username avatar")`. -/
def Db.populatePostedBy (db : Db) (p : Post) : PostView :=
  ⟨p, db.author p.postedBy⟩

/-- The nested joins of `getPost`: the references of `post.comments` and
`post.reactions` are resolved in the order in which the post lists them, a reference to
a missing document being left out. -/
def Db.populateDetail (db : Db) (p : Post) : PostDetail :=
  { post := p
    comments := (p.comments.filterMap
        (fun cid => db.comments.find? (fun c => c.id == cid))).map
      (fun c => (c, db.author c.commentedBy))
    reactions := (p.reactions.filterMap
        (fun rid => db.reactions.find? (fun r => r.id == rid))).map
      (fun r => (r, db.author r.reactedBy))
    postedBy := db.author p.postedBy }

/-! ## The handlers -/

/-- Lines 47-57 of `createPost`: `postModel.create` followed by the 201 response. -/
def persistPost (env : Env) (req : Req) (thumbnail : Thumbnail) (db : Db)
    (issued : List Effect) : Outcome :=
  let issued := issued ++ [Effect.create req.content thumbnail req.userId]
  if env.createOk then
    let post : Post :=
      { id := env.newId, content := req.content, title := .undefined,
        description := .undefined, thumbnail := thumbnail, postedBy := req.userId,
        numberOfRepost := 0, comments := [], reactions := [], createdAt := env.now }
    ⟨.json 201 "Thank you for sharing your post." (.post post), db.insertPost post, issued⟩
  else ⟨.uncaught, db, issued⟩

/-- The local `isImage` of `createPost`: `req.file.mimetype.startsWith("image")`. -/
def isImage (file : UploadedFile) : Bool :=
  "image".toList.isPrefixOf file.mimetype.toList

/-- The local `setFolder` of `createPost`. -/
def setFolder (file : UploadedFile) : String :=
  if isImage file then "SpeakWave_Post_Images" else "SpeakWave_Posts_Videos"

/-- The local `resourceType` of `createPost`. -/
def resourceType (file : UploadedFile) : String :=
  if isImage file then "image" else "video"

/-- The handler `createPost`. -/
def createPost (env : Env) (req : Req) (db : Db) : Outcome :=
  if !req.content.truthy then
    ⟨.appError "Content is required" 400, db, []⟩
  else
    match req.file with
    | some file =>
      let issued := [Effect.upload file.path (setFolder file) (some (resourceType file))]
      match env.upload file.path (setFolder file) (some (resourceType file)) with
      | .throws => ⟨.appError "Error while uploading thumbnail" 500, db, issued⟩
      | .falsy => persistPost env req Thumbnail.empty db issued
      | .ok pid url =>
        persistPost env req ⟨some pid, some url⟩ db
          (issued ++ [Effect.rm ("uploads/" ++ file.filename)])
    | none => persistPost env req Thumbnail.empty db []

/-- The handler `getAllPosts`. -/
def getAllPosts (_env : Env) (_req : Req) (db : Db) : Outcome :=
  let posts := db.posts.map db.populatePostedBy
  if posts.length = 0 then
    ⟨.appError "No posts found" 404, db, [Effect.findAllPosts]⟩
  else
    ⟨.json 200 "Posts fetched successfully." (.posts posts), db, [Effect.findAllPosts]⟩

/-- The handler `getPost`. -/
def getPost (_env : Env) (req : Req) (db : Db) : Outcome :=
  match db.findPost req.id with
  | .castError => ⟨.uncaught, db, [Effect.findPostById req.id]⟩
  | .null => ⟨.appError "Post not found" 404, db, [Effect.findPostById req.id]⟩
  | .doc post =>
    ⟨.json 200 "Post fetched successfully" (.detail (db.populateDetail post)), db,
      [Effect.findPostById req.id]⟩

/-- Lines 165-171 of `editPost`: `post.save()` followed by the 200 response. -/
def savePostAndReply (env : Env) (post : Post) (db : Db) (issued : List Effect) :
    Outcome :=
  let issued := issued ++ [Effect.savePost post]
  if env.postSaveOk then
    ⟨.json 200 "Post updated successfully." (.post post), db.savePost post, issued⟩
  else ⟨.uncaught, db, issued⟩

/-- The handler `editPost`. -/
def editPost (env : Env) (req : Req) (db : Db) : Outcome :=
  let issued := [Effect.findPostById req.id]
  match db.findPost req.id with
  | .castError => ⟨.uncaught, db, issued⟩
  | .null => ⟨.appError "Post not found" 404, db, issued⟩
  | .doc post =>
    let post := if req.title.truthy then { post with title := req.title } else post
    let post :=
      if req.description.truthy then { post with description := req.description } else post
    match req.file with
    | some file =>
      let issued := issued ++ [Effect.destroy post.thumbnail.public_id]
      if !env.destroy post.thumbnail.public_id then
        ⟨.appError "Error while uploading post thumbnail" 500, db, issued⟩
      else
        let issued := issued ++ [Effect.upload file.path "SpeakWave_Posts" none]
        match env.upload file.path "SpeakWave_Posts" none with
        | .throws => ⟨.appError "Error while uploading post thumbnail" 500, db, issued⟩
        | .falsy => savePostAndReply env post db issued
        | .ok pid url =>
          savePostAndReply env { post with thumbnail := ⟨some pid, some url⟩ } db
            (issued ++ [Effect.rm ("uploads/" ++ file.filename)])
    | none => savePostAndReply env post db issued

/-- The handler `removePost`. -/
def removePost (env : Env) (req : Req) (db : Db) : Outcome :=
  let issued := [Effect.findPostById req.id]
  match db.findPost req.id with
  | .castError => ⟨.uncaught, db, issued⟩
  | .null => ⟨.appError "Post not found" 404, db, issued⟩
  | .doc postExists =>
    let issued := issued ++ [Effect.destroy postExists.thumbnail.public_id]
    if !env.destroy postExists.thumbnail.public_id then ⟨.uncaught, db, issued⟩
    else
      let issued := issued ++ [Effect.findByIdAndDelete req.id]
      if env.deleteOk then
        ⟨.json 200 "Post deleted successfully." .none, db.deletePost req.id, issued⟩
      else ⟨.uncaught, db, issued⟩

/-- The handler `repostPost`. -/
def repostPost (env : Env) (req : Req) (db : Db) : Outcome :=
  let issued := [Effect.findUserById req.userId, Effect.findPostById req.id]
  match db.findUser req.userId, db.findPost req.id with
  | _, .castError => ⟨.uncaught, db, issued⟩
  | some user, .doc post =>
    if req.userId == post.postedBy then
      ⟨.appError "You can\x27t repost your post" 400, db, issued⟩
    else
      let user := { user with repost := user.repost ++ [post.id] }
      let issued := issued ++ [Effect.saveUser user]
      if !env.userSaveOk then ⟨.uncaught, db, issued⟩
      else
        let db := db.saveUser user
        let post := { post with numberOfRepost := post.numberOfRepost + 1 }
        let issued := issued ++ [Effect.savePost post]
        if !env.postSaveOk then ⟨.uncaught, db, issued⟩
        else ⟨.json 201 "Post reposted successfully" .none, db.savePost post, issued⟩
  | _, _ => ⟨.appError "User or post not found" 404, db, issued⟩

/-- The handler `fetchFollowingFeed`.  The filter of line 255 is on the path `user`. -/
def fetchFollowingFeed (env : Env) (req : Req) (db : Db) : Outcome :=
  let issued := [Effect.findUserById req.userId]
  match db.findUser req.userId with
  | none => ⟨.appError "User not found" 404, db, issued⟩
  | some user =>
    let followingUsers := user.following
    if followingUsers.length = 0 then
      ⟨.appError "You aren\x27t following anyone." 400, db, issued⟩
    else
      let issued := issued ++ [Effect.findPostsIn "user" followingUsers]
      let posts :=
        (sortCreatedAtDesc (db.findPostsIn env.strictQuery "user" followingUsers)).map
          db.populatePostedBy
      if posts.length = 0 then ⟨.appError "Feed post not found" 404, db, issued⟩
      else ⟨.json 200 "Feed fetched successfully." (.posts posts), db, issued⟩

/-- Runs `repostPost` for the same request `n` times in succession, each call on the
collections the previous one left. -/
def repostTimes (env : Env) (req : Req) : Nat → Db → Db
  | 0, db => db
  | n + 1, db => repostTimes env req n (repostPost env req db).db

/-- The feed the spec describes: the stored posts whose author is in `following`, by
`createdAt` descending. -/
def specFeed (db : Db) (following : List Id) : List Post :=
  sortCreatedAtDesc (db.posts.filter (fun p => following.contains p.postedBy))

/-! ## Concrete data

Three users (alice follows bob only) and three posts: `firstPost` and `secondPost` by
bob, `otherPost` by carol. -/

/-- User A of the scenario: follows bob only. -/
def alice : User := ⟨1, "alice", Thumbnail.empty, [2], []⟩

/-- User B of the scenario. -/
def bob : User := ⟨2, "bob", Thumbnail.empty, [], []⟩

/-- A user nobody follows. -/
def carol : User := ⟨3, "carol", Thumbnail.empty, [], []⟩

/-- A user who follows nobody. -/
def dave : User := ⟨4, "dave", Thumbnail.empty, [], [10]⟩

/-- Post P1 of bob, created without a file: its thumbnail is the empty object. -/
def firstPost : Post :=
  ⟨10, .str "first", .undefined, .undefined, Thumbnail.empty, 2, 0, [], [], 100⟩

/-- Post P2 of bob, created later and with a file. -/
def secondPost : Post :=
  ⟨11, .str "second", .undefined, .undefined, ⟨some "img/11", some "https://cdn/img/11"⟩,
    2, 5, [], [], 200⟩

/-- A post of carol, whom alice does not follow. -/
def otherPost : Post :=
  ⟨12, .str "other", .undefined, .undefined, Thumbnail.empty, 3, 0, [], [], 300⟩

/-- The scenario of the spec: bob posted P1 then P2 and nobody else posted. -/
def scenarioDb : Db := ⟨[alice, bob], [firstPost, secondPost], [], []⟩

/-- The scenario together with carol, dave and the post of carol. -/
def sampleDb : Db :=
  ⟨[alice, bob, carol, dave], [firstPost, secondPost, otherPost], [], []⟩

/-- Every external call resolves; queries keep the paths the schema does not declare. -/
def calmEnv : Env :=
  { upload := fun _ _ _ => .ok "img/new" "https://cdn/img/new"
    destroy := fun _ => true
    createOk := true, postSaveOk := true, userSaveOk := true, deleteOk := true
    newId := 50, now := 400, strictQuery := false }

/-- As `calmEnv`, with `strictQuery` on. -/
def strictEnv : Env := { calmEnv with strictQuery := true }

/-- As `calmEnv`, but the media upload throws. -/
def uploadDownEnv : Env := { calmEnv with upload := fun _ _ _ => .throws }

/-- As `calmEnv`, but the media delegate rejects a delete that names no asset. -/
def pickyEnv : Env := { calmEnv with destroy := fun pid => pid.isSome }

/-- As `calmEnv`, but `post.save()` rejects. -/
def postSaveDownEnv : Env := { calmEnv with postSaveOk := false }

/-- A request of alice on P1 with no body and no file. -/
def aliceReq : Req := ⟨1, 10, .undefined, .undefined, .undefined, none⟩

/-- An attached image. -/
def pngFile : UploadedFile := ⟨"image/png", "uploads/a1b2", "a1b2"⟩

/-- A request of alice whose route parameter is the path segment `abc`, which does not
cast to a document identifier; it carries a title and a file. -/
def malformedReq : Req :=
  ⟨1, .malformed "abc", .undefined, .str "t", .undefined, some pngFile⟩

end Threads

namespace Threads

/-! ## Lookup lemmas -/

/-- A user found by id has that id. -/
theorem Db.findUser_id {db : Db} {id : Id} {u : User} (h : db.findUser id = some u) :
    u.id = id := by
  have := List.find?_some h
  simpa using this

/-- A post found by id has that id. -/
theorem Db.findPost_id {db : Db} {raw : ParamId} {p : Post}
    (h : db.findPost raw = .doc p) : raw = .oid p.id := by
  cases raw with
  | malformed r => simp [Db.findPost] at h
  | oid id =>
    cases hfind : db.posts.find? (fun q => q.id == id) with
    | none => simp [Db.findPost, hfind] at h
    | some q =>
      simp only [Db.findPost, hfind, Lookup.doc.injEq] at h
      subst h
      have := List.find?_some hfind
      simp only [beq_iff_eq] at this
      rw [this]

/-- Replacing the documents with a given id makes the lookup return the replacement. -/
theorem find?_replace_user (us : List User) (id : Id) (u u' : User)
    (h : us.find? (fun v => v.id == id) = some u) (hid : u'.id = id) :
    (us.map (fun v => if v.id == u'.id then u' else v)).find? (fun v => v.id == id)
      = some u' := by
  induction us with
  | nil => simp at h
  | cons v vs ih =>
    by_cases hv : v.id = id
    · simp only [List.map_cons, hid, hv, beq_self_eq_true, if_true, List.find?_cons]
    · have h' : vs.find? (fun v => v.id == id) = some u := by
        simpa [List.find?_cons, hv] using h
      have hb : (v.id == id) = false := by simpa using hv
      simp only [List.map_cons, hid, hb, Bool.false_eq_true, if_false, List.find?_cons]
      simpa only [hid] using ih h'

/-- Replacing the documents with a given id makes the lookup return the replacement. -/
theorem find?_replace_post (ps : List Post) (id : Id) (p p' : Post)
    (h : ps.find? (fun q => q.id == id) = some p) (hid : p'.id = id) :
    (ps.map (fun q => if q.id == p'.id then p' else q)).find? (fun q => q.id == id)
      = some p' := by
  induction ps with
  | nil => simp at h
  | cons q qs ih =>
    by_cases hq : q.id = id
    · simp only [List.map_cons, hid, hq, beq_self_eq_true, if_true, List.find?_cons]
    · have h' : qs.find? (fun q => q.id == id) = some p := by
        simpa [List.find?_cons, hq] using h
      have hb : (q.id == id) = false := by simpa using hq
      simp only [List.map_cons, hid, hb, Bool.false_eq_true, if_false, List.find?_cons]
      simpa only [hid] using ih h'

/-- After `user.save()` the lookup of that user returns the saved document. -/
theorem Db.findUser_saveUser (db : Db) {id : Id} {u u' : User}
    (h : db.findUser id = some u) (hid : u'.id = id) :
    (db.saveUser u').findUser id = some u' :=
  find?_replace_user db.users id u u' h hid

/-- After `post.save()` the lookup of that post returns the saved document. -/
theorem Db.findPost_savePost (db : Db) {raw : ParamId} {p p' : Post}
    (h : db.findPost raw = .doc p) (hid : raw = .oid p'.id) :
    (db.savePost p').findPost raw = .doc p' := by
  subst hid
  cases hfind : db.posts.find? (fun q => q.id == p'.id) with
  | none => simp [Db.findPost, hfind] at h
  | some q =>
    have := find?_replace_post db.posts p'.id q p' hfind rfl
    simp only [Db.findPost, Db.savePost, this]

/-! ## createPost -/

/-- C2: a `createPost` request whose content is `undefined`, `null` or the empty string,
with or without a file, ends in the error "Content is required" with status 400; the
collections are returned as they were and the handler issued no external call at all
(no create, no media upload, no temp-file removal). -/
theorem createPost_content_absent (env : Env) (req : Req) (db : Db)
    (h : req.content = .undefined ∨ req.content = .null ∨ req.content = .str "") :
    createPost env req db = ⟨.appError "Content is required" 400, db, []⟩ := by
  rcases h with h | h | h <;> simp [createPost, h, JsVal.truthy]

/-- C2, at inputs: empty content with an attached image, and missing content
without one. -/
theorem createPost_content_absent_witness :
    ({ aliceReq with content := .str "", file := some pngFile } : Req).content = .str "" ∧
    createPost calmEnv { aliceReq with content := .str "", file := some pngFile } sampleDb
      = ⟨.appError "Content is required" 400, sampleDb, []⟩ ∧
    createPost calmEnv aliceReq sampleDb
      = ⟨.appError "Content is required" 400, sampleDb, []⟩ :=
  ⟨rfl,
   createPost_content_absent calmEnv _ sampleDb (Or.inr (Or.inr rfl)),
   createPost_content_absent calmEnv aliceReq sampleDb (Or.inl rfl)⟩

/-! ## repostPost -/

/-- The two guards passed and both writes resolving, `repostPost` saves the user with
the post id appended and then the post with the counter incremented. -/
theorem repostPost_step (env : Env) (req : Req) (db : Db) (U : User) (P : Post)
    (hU : db.findUser req.userId = some U) (hP : db.findPost req.id = .doc P)
    (hne : P.postedBy ≠ req.userId)
    (hu : env.userSaveOk = true) (hp : env.postSaveOk = true) :
    repostPost env req db =
      ⟨.json 201 "Post reposted successfully" .none,
       (db.saveUser { U with repost := U.repost ++ [P.id] }).savePost
         { P with numberOfRepost := P.numberOfRepost + 1 },
       [Effect.findUserById req.userId, Effect.findPostById req.id,
        Effect.saveUser { U with repost := U.repost ++ [P.id] },
        Effect.savePost { P with numberOfRepost := P.numberOfRepost + 1 }]⟩ := by
  have hne' : ¬ req.userId = P.postedBy := fun h => hne h.symm
  simp [repostPost, hU, hP, hne', hu, hp]

/-- The stored user and post after `n` successive reposts. -/
theorem repostTimes_lookup (env : Env) (req : Req)
    (hu : env.userSaveOk = true) (hp : env.postSaveOk = true) :
    ∀ (n : Nat) (db : Db) (U : User) (P : Post),
      db.findUser req.userId = some U → db.findPost req.id = .doc P →
      P.postedBy ≠ req.userId →
      (repostTimes env req n db).findUser req.userId
          = some { U with repost := U.repost ++ List.replicate n P.id } ∧
      (repostTimes env req n db).findPost req.id
          = .doc { P with numberOfRepost := P.numberOfRepost + n } := by
  intro n
  induction n with
  | zero =>
    intro db U P hU hP _
    simpa [repostTimes] using And.intro hU hP
  | succ n ih =>
    intro db U P hU hP hne
    have hstep := repostPost_step env req db U P hU hP hne hu hp
    have hU' : (repostPost env req db).db.findUser req.userId
        = some { U with repost := U.repost ++ [P.id] } := by
      rw [hstep]
      exact Db.findUser_saveUser db hU (Db.findUser_id (u := U) hU)
    have hP' : (repostPost env req db).db.findPost req.id
        = .doc { P with numberOfRepost := P.numberOfRepost + 1 } := by
      rw [hstep]
      exact Db.findPost_savePost (db.saveUser _) hP (Db.findPost_id (p := P) hP)
    obtain ⟨h1, h2⟩ := ih (repostPost env req db).db _ _ hU' hP' hne
    refine ⟨?_, ?_⟩
    · simp only [repostTimes, h1, List.append_assoc, List.singleton_append,
        List.replicate_succ]
    · simp only [repostTimes, h2, Nat.add_assoc, Nat.add_comm 1 n]

/-- C3: when the post exists, the user exists and the post was posted by the requester,
`repostPost` ends in the error with status 400; the collections are returned as they
were (so the stored repost list of the user and the stored `numberOfRepost` of the post
are those of before), and the only calls issued are the two lookups: no save. -/
theorem repostPost_own_post (env : Env) (req : Req) (db : Db) (U : User) (P : Post)
    (hU : db.findUser req.userId = some U) (hP : db.findPost req.id = .doc P)
    (hself : P.postedBy = req.userId) :
    (repostPost env req db).reply = .appError "You can\x27t repost your post" 400 ∧
    (repostPost env req db).db = db ∧
    (repostPost env req db).db.findUser req.userId = some U ∧
    (repostPost env req db).db.findPost req.id = .doc P ∧
    (repostPost env req db).effects
      = [Effect.findUserById req.userId, Effect.findPostById req.id] ∧
    (∀ e ∈ (repostPost env req db).effects, e.isWrite = false) := by
  have h : repostPost env req db
      = ⟨.appError "You can\x27t repost your post" 400, db,
         [Effect.findUserById req.userId, Effect.findPostById req.id]⟩ := by
    simp [repostPost, hU, hP, hself]
  rw [h]
  refine ⟨rfl, rfl, hU, hP, rfl, ?_⟩
  intro e he
  simp only [List.mem_cons, List.mem_singleton, List.not_mem_nil, or_false] at he
  rcases he with rfl | rfl <;> rfl

/-- C3, at an input: bob reposting his own post P1. -/
theorem repostPost_own_post_witness :
    sampleDb.findUser 2 = some bob ∧ sampleDb.findPost 10 = .doc firstPost ∧
    firstPost.postedBy = 2 ∧
    (repostPost postSaveDownEnv { aliceReq with userId := 2 } sampleDb).reply
      = .appError "You can\x27t repost your post" 400 ∧
    (repostPost postSaveDownEnv { aliceReq with userId := 2 } sampleDb).db = sampleDb :=
  ⟨by decide, by decide, rfl,
   (repostPost_own_post postSaveDownEnv { aliceReq with userId := 2 } sampleDb bob firstPost
      (by decide) (by decide) rfl).1,
   (repostPost_own_post postSaveDownEnv { aliceReq with userId := 2 } sampleDb bob firstPost
      (by decide) (by decide) rfl).2.1⟩

/-- C4: for an existing user `U` and an existing post `P` not posted by `U`, with both
writes resolving, every one of the successive `repostPost` calls answers 201; after `n`
of them the stored repost list of `U` is the former list followed by `n` copies of the
reference to `P`, and the stored `numberOfRepost` of `P` is the former value plus `n`.
In particular two calls append the reference twice and add 2. -/
theorem repostPost_repeated (env : Env) (req : Req) (db : Db) (U : User) (P : Post)
    (n : Nat)
    (hU : db.findUser req.userId = some U) (hP : db.findPost req.id = .doc P)
    (hne : P.postedBy ≠ req.userId)
    (hu : env.userSaveOk = true) (hp : env.postSaveOk = true) :
    (∀ k, (repostPost env req (repostTimes env req k db)).reply
        = .json 201 "Post reposted successfully" .none) ∧
    (repostTimes env req n db).findUser req.userId
        = some { U with repost := U.repost ++ List.replicate n P.id } ∧
    (repostTimes env req n db).findPost req.id
        = .doc { P with numberOfRepost := P.numberOfRepost + n } ∧
    (repostPost env req (repostPost env req db).db).db.findUser req.userId
        = some { U with repost := U.repost ++ [P.id, P.id] } ∧
    (repostPost env req (repostPost env req db).db).db.findPost req.id
        = .doc { P with numberOfRepost := P.numberOfRepost + 2 } := by
  refine ⟨?_, (repostTimes_lookup env req hu hp n db U P hU hP hne).1,
    (repostTimes_lookup env req hu hp n db U P hU hP hne).2, ?_, ?_⟩
  · intro k
    obtain ⟨h1, h2⟩ := repostTimes_lookup env req hu hp k db U P hU hP hne
    rw [repostPost_step env req _ _ _ h1 h2 hne hu hp]
  · exact (repostTimes_lookup env req hu hp 2 db U P hU hP hne).1
  · exact (repostTimes_lookup env req hu hp 2 db U P hU hP hne).2

/-- C4, at an input: alice reposts P2 of bob three times. -/
theorem repostPost_repeated_witness :
    sampleDb.findUser 1 = some alice ∧ sampleDb.findPost 11 = .doc secondPost ∧
    secondPost.postedBy ≠ 1 ∧
    (repostTimes calmEnv { aliceReq with id := 11 } 3 sampleDb).findUser 1
      = some { alice with repost := [11, 11, 11] } ∧
    (repostTimes calmEnv { aliceReq with id := 11 } 3 sampleDb).findPost 11
      = .doc { secondPost with numberOfRepost := 8 } :=
  ⟨by decide, by decide, by decide,
   (repostPost_repeated calmEnv { aliceReq with id := 11 } sampleDb alice secondPost 3
      (by decide) (by decide) (by decide) rfl rfl).2.1,
   (repostPost_repeated calmEnv { aliceReq with id := 11 } sampleDb alice secondPost 3
      (by decide) (by decide) (by decide) rfl rfl).2.2.1⟩

/-- C9, as stated, does not hold: there is no user `U`, post `P` not posted by `U` and
failure of one of the two writes after which the stored `numberOfRepost` of `P` is one
more than before while the stored repost list of `U` is the one of before.  The user is
saved first, so the counter is only ever written after the list. -/
theorem repostPost_no_counter_without_list :
    ¬ ∃ (env : Env) (req : Req) (db : Db) (U : User) (P : Post),
        db.findUser req.userId = some U ∧ db.findPost req.id = .doc P ∧
        P.postedBy ≠ req.userId ∧
        (env.userSaveOk = false ∨ env.postSaveOk = false) ∧
        (∃ P', (repostPost env req db).db.findPost req.id = .doc P' ∧
          P'.numberOfRepost = P.numberOfRepost + 1) ∧
        (∃ U', (repostPost env req db).db.findUser req.userId = some U' ∧
          U'.repost = U.repost) := by
  rintro ⟨env, req, db, U, P, hU, hP, hne, hfail, ⟨P', hP', hcount⟩, _⟩
  have hne' : ¬ req.userId = P.postedBy := fun h => hne h.symm
  have hposts : (repostPost env req db).db.findPost req.id = .doc P := by
    rcases hfail with hu | hp
    · simp [repostPost, hU, hP, hne', hu]
    · cases hu : env.userSaveOk
      · simp [repostPost, hU, hP, hne', hu]
      · simp only [repostPost, hU, hP, hne', hu, hp, beq_iff_eq, if_false,
          Bool.not_true, Bool.not_false, Bool.false_eq_true, if_true]
        exact hP
  rw [hposts] at hP'
  cases hP'
  omega

/-- C9, amended: `repostPost` is not transactional.  For an existing user `U` and an
existing post `P` not posted by `U`: when `user.save()` rejects, nothing is stored; when
`user.save()` resolves and `post.save()` rejects, the stored repost list of `U` has
gained the reference to `P` while the stored `P`, its `numberOfRepost` included, is the
one of before.  In both cases the rejection goes uncaught to `asyncHandler`. -/
theorem repostPost_partial_state (env : Env) (req : Req) (db : Db) (U : User) (P : Post)
    (hU : db.findUser req.userId = some U) (hP : db.findPost req.id = .doc P)
    (hne : P.postedBy ≠ req.userId) :
    (env.userSaveOk = false →
      (repostPost env req db).reply = .uncaught ∧ (repostPost env req db).db = db) ∧
    (env.userSaveOk = true → env.postSaveOk = false →
      (repostPost env req db).reply = .uncaught ∧
      (repostPost env req db).db.findUser req.userId
        = some { U with repost := U.repost ++ [P.id] } ∧
      (repostPost env req db).db.findPost req.id = .doc P ∧
      (repostPost env req db).effects
        = [Effect.findUserById req.userId, Effect.findPostById req.id,
           Effect.saveUser { U with repost := U.repost ++ [P.id] },
           Effect.savePost { P with numberOfRepost := P.numberOfRepost + 1 }]) := by
  have hne' : ¬ req.userId = P.postedBy := fun h => hne h.symm
  constructor
  · intro hu
    simp [repostPost, hU, hP, hne', hu]
  · intro hu hp
    have h : repostPost env req db
        = ⟨.uncaught, db.saveUser { U with repost := U.repost ++ [P.id] },
           [Effect.findUserById req.userId, Effect.findPostById req.id,
            Effect.saveUser { U with repost := U.repost ++ [P.id] },
            Effect.savePost { P with numberOfRepost := P.numberOfRepost + 1 }]⟩ := by
      simp [repostPost, hU, hP, hne', hu, hp]
    rw [h]
    exact ⟨rfl, Db.findUser_saveUser db hU (Db.findUser_id (u := U) hU), hP, rfl⟩

/-- C9 amended, at an input: alice reposts P2 of bob and `post.save()` rejects. -/
theorem repostPost_partial_state_witness :
    sampleDb.findUser 1 = some alice ∧ sampleDb.findPost 11 = .doc secondPost ∧
    secondPost.postedBy ≠ 1 ∧
    postSaveDownEnv.userSaveOk = true ∧ postSaveDownEnv.postSaveOk = false ∧
    (repostPost postSaveDownEnv { aliceReq with id := 11 } sampleDb).db.findUser 1
      = some { alice with repost := [11] } ∧
    (repostPost postSaveDownEnv { aliceReq with id := 11 } sampleDb).db.findPost 11
      = .doc secondPost :=
  ⟨by decide, by decide, by decide, rfl, rfl,
   ((repostPost_partial_state postSaveDownEnv { aliceReq with id := 11 } sampleDb alice
      secondPost (by decide) (by decide) (by decide)).2 rfl rfl).2.1,
   ((repostPost_partial_state postSaveDownEnv { aliceReq with id := 11 } sampleDb alice
      secondPost (by decide) (by decide) (by decide)).2 rfl rfl).2.2.1⟩

/-! ## Lookups that find nothing -/

/-- C10, as stated, does not hold for an id that does not cast to a document id.  The
path segment `abc` matches no stored post, and on it `findById` rejects before the guard
of each handler: `getPost`, `editPost`, `removePost` and `repostPost` end in the uncaught
rejection and none of them answers 404. -/
theorem post_not_found_malformed_id :
    (∀ P, sampleDb.findPost malformedReq.id ≠ .doc P) ∧
    getPost calmEnv malformedReq sampleDb
      = ⟨.uncaught, sampleDb, [Effect.findPostById (.malformed "abc")]⟩ ∧
    editPost calmEnv malformedReq sampleDb
      = ⟨.uncaught, sampleDb, [Effect.findPostById (.malformed "abc")]⟩ ∧
    removePost calmEnv malformedReq sampleDb
      = ⟨.uncaught, sampleDb, [Effect.findPostById (.malformed "abc")]⟩ ∧
    repostPost calmEnv malformedReq sampleDb
      = ⟨.uncaught, sampleDb,
         [Effect.findUserById 1, Effect.findPostById (.malformed "abc")]⟩ ∧
    (∀ o ∈ [getPost calmEnv malformedReq sampleDb, editPost calmEnv malformedReq sampleDb,
            removePost calmEnv malformedReq sampleDb,
            repostPost calmEnv malformedReq sampleDb],
      o.reply.status? ≠ some 404) := by
  refine ⟨?_, by decide, by decide, by decide, by decide, by decide⟩
  intro P h
  have h' : sampleDb.findPost malformedReq.id = .castError := by decide
  rw [h'] at h
  cases h

/-- C10, amended: let the requested id match no stored post.  Then `getPost`,
`editPost`, `removePost` and `repostPost` each return the collections as they were and
issue nothing but their lookups: no save, create or delete and no call on the media
delegate or the file system, whatever fields or file come with the request and whatever
the external calls would have answered.  When the id is well formed each of them ends in
an error with status 404; when it is malformed the lookup rejects and each of them ends
in the uncaught rejection. -/
theorem post_not_found_well_formed (env : Env) (req : Req) (db : Db)
    (h : ∀ P, db.findPost req.id ≠ .doc P) :
    (∀ o ∈ [getPost env req db, editPost env req db, removePost env req db,
            repostPost env req db],
      o.db = db ∧
      ∀ e ∈ o.effects, e.isWrite = false ∧ e.isMedia = false ∧ e.isRm = false) ∧
    (∀ i, req.id = .oid i →
      getPost env req db = ⟨.appError "Post not found" 404, db,
        [Effect.findPostById req.id]⟩ ∧
      editPost env req db = ⟨.appError "Post not found" 404, db,
        [Effect.findPostById req.id]⟩ ∧
      removePost env req db = ⟨.appError "Post not found" 404, db,
        [Effect.findPostById req.id]⟩ ∧
      repostPost env req db = ⟨.appError "User or post not found" 404, db,
        [Effect.findUserById req.userId, Effect.findPostById req.id]⟩) ∧
    (∀ r, req.id = .malformed r →
      getPost env req db = ⟨.uncaught, db, [Effect.findPostById req.id]⟩ ∧
      editPost env req db = ⟨.uncaught, db, [Effect.findPostById req.id]⟩ ∧
      removePost env req db = ⟨.uncaught, db, [Effect.findPostById req.id]⟩ ∧
      repostPost env req db = ⟨.uncaught, db,
        [Effect.findUserById req.userId, Effect.findPostById req.id]⟩) := by
  have hnull : ∀ i, req.id = .oid i → db.findPost req.id = .null := by
    intro i hi
    cases hl : db.findPost req.id with
    | castError => rw [hi] at hl; simp only [Db.findPost] at hl; split at hl <;> cases hl
    | null => rfl
    | doc P => exact absurd hl (h P)
  have hcast : ∀ r, req.id = .malformed r → db.findPost req.id = .castError := by
    intro r hr
    rw [hr]
    rfl
  have part404 : ∀ i, req.id = .oid i →
      getPost env req db = ⟨.appError "Post not found" 404, db,
        [Effect.findPostById req.id]⟩ ∧
      editPost env req db = ⟨.appError "Post not found" 404, db,
        [Effect.findPostById req.id]⟩ ∧
      removePost env req db = ⟨.appError "Post not found" 404, db,
        [Effect.findPostById req.id]⟩ ∧
      repostPost env req db = ⟨.appError "User or post not found" 404, db,
        [Effect.findUserById req.userId, Effect.findPostById req.id]⟩ := by
    intro i hi
    have hl := hnull i hi
    refine ⟨by simp [getPost, hl], by simp [editPost, hl], by simp [removePost, hl], ?_⟩
    cases hu : db.findUser req.userId <;> simp [repostPost, hl, hu]
  have partCast : ∀ r, req.id = .malformed r →
      getPost env req db = ⟨.uncaught, db, [Effect.findPostById req.id]⟩ ∧
      editPost env req db = ⟨.uncaught, db, [Effect.findPostById req.id]⟩ ∧
      removePost env req db = ⟨.uncaught, db, [Effect.findPostById req.id]⟩ ∧
      repostPost env req db = ⟨.uncaught, db,
        [Effect.findUserById req.userId, Effect.findPostById req.id]⟩ := by
    intro r hr
    have hl := hcast r hr
    refine ⟨by simp [getPost, hl], by simp [editPost, hl], by simp [removePost, hl], ?_⟩
    cases hu : db.findUser req.userId <;> simp [repostPost, hl, hu]
  refine ⟨?_, part404, partCast⟩
  intro o ho
  simp only [List.mem_cons, List.mem_singleton, List.not_mem_nil, or_false] at ho
  cases hid : req.id with
  | oid i =>
    obtain ⟨h1, h2, h3, h4⟩ := part404 i hid
    rw [h1, h2, h3, h4] at ho
    rcases ho with rfl | rfl | rfl | rfl <;>
      simp [Effect.isWrite, Effect.isMedia, Effect.isRm]
  | malformed r =>
    obtain ⟨h1, h2, h3, h4⟩ := partCast r hid
    rw [h1, h2, h3, h4] at ho
    rcases ho with rfl | rfl | rfl | rfl <;>
      simp [Effect.isWrite, Effect.isMedia, Effect.isRm]

/-- C10 amended, at inputs: the well-formed id 77 matches no stored post, the request
carrying a title and a file; and the malformed id `abc`. -/
theorem post_not_found_well_formed_witness :
    (∀ P, sampleDb.findPost 77 ≠ .doc P) ∧
    editPost calmEnv { aliceReq with id := 77, title := .str "t", file := some pngFile }
        sampleDb
      = ⟨.appError "Post not found" 404, sampleDb, [Effect.findPostById 77]⟩ ∧
    removePost calmEnv { aliceReq with id := 77, title := .str "t", file := some pngFile }
        sampleDb
      = ⟨.appError "Post not found" 404, sampleDb, [Effect.findPostById 77]⟩ ∧
    repostPost calmEnv malformedReq sampleDb
      = ⟨.uncaught, sampleDb,
         [Effect.findUserById 1, Effect.findPostById (.malformed "abc")]⟩ :=
  ⟨fun P h =>
     Lookup.noConfusion ((show sampleDb.findPost 77 = .null by decide).symm.trans h),
   ((post_not_found_well_formed calmEnv
      { aliceReq with id := 77, title := .str "t", file := some pngFile } sampleDb
      (fun P h =>
        Lookup.noConfusion ((show sampleDb.findPost 77 = .null by decide).symm.trans h))).2.1 77 rfl).2.1,
   ((post_not_found_well_formed calmEnv
      { aliceReq with id := 77, title := .str "t", file := some pngFile } sampleDb
      (fun P h =>
        Lookup.noConfusion ((show sampleDb.findPost 77 = .null by decide).symm.trans h))).2.1 77 rfl).2.2.1,
   ((post_not_found_well_formed calmEnv malformedReq sampleDb
      (fun P h =>
        Lookup.noConfusion ((show sampleDb.findPost malformedReq.id = .castError by decide).symm.trans h))).2.2 "abc" rfl).2.2.2⟩

/-! ## fetchFollowingFeed -/

/-- C5: the guards of `fetchFollowingFeed` in their order.  A missing user gives 404
after the user lookup alone; an existing user with an empty following list gives 400
with the message of line 252, again after the user lookup alone, so no post query is
issued; an existing user with a non-empty following list whose query returns nothing
gives 404 after the query. -/
theorem fetchFollowingFeed_guards (env : Env) (req : Req) (db : Db) :
    (db.findUser req.userId = none →
      fetchFollowingFeed env req db
        = ⟨.appError "User not found" 404, db, [Effect.findUserById req.userId]⟩) ∧
    (∀ u, db.findUser req.userId = some u → u.following = [] →
      fetchFollowingFeed env req db
        = ⟨.appError "You aren\x27t following anyone." 400, db,
           [Effect.findUserById req.userId]⟩ ∧
      ∀ e ∈ (fetchFollowingFeed env req db).effects, e.isPostQuery = false) ∧
    (∀ u, db.findUser req.userId = some u → u.following ≠ [] →
      db.findPostsIn env.strictQuery "user" u.following = [] →
      fetchFollowingFeed env req db
        = ⟨.appError "Feed post not found" 404, db,
           [Effect.findUserById req.userId, Effect.findPostsIn "user" u.following]⟩) := by
  refine ⟨?_, ?_, ?_⟩
  · intro h
    simp [fetchFollowingFeed, h]
  · intro u hu hf
    have h : fetchFollowingFeed env req db
        = ⟨.appError "You aren\x27t following anyone." 400, db,
           [Effect.findUserById req.userId]⟩ := by
      simp [fetchFollowingFeed, hu, hf]
    rw [h]
    refine ⟨rfl, ?_⟩
    intro e he
    simp only [List.mem_singleton] at he
    subst he
    rfl
  · intro u hu hf hq
    simp [fetchFollowingFeed, hu, hf, hq, sortCreatedAtDesc]

/-- C5, at inputs: user 9 does not exist; dave follows nobody; alice follows bob and,
queries keeping the undeclared path, her query returns nothing. -/
theorem fetchFollowingFeed_guards_witness :
    sampleDb.findUser 9 = none ∧
    fetchFollowingFeed calmEnv { aliceReq with userId := 9 } sampleDb
      = ⟨.appError "User not found" 404, sampleDb, [Effect.findUserById 9]⟩ ∧
    sampleDb.findUser 4 = some dave ∧ dave.following = [] ∧
    fetchFollowingFeed calmEnv { aliceReq with userId := 4 } sampleDb
      = ⟨.appError "You aren\x27t following anyone." 400, sampleDb,
         [Effect.findUserById 4]⟩ ∧
    sampleDb.findUser 1 = some alice ∧ alice.following ≠ [] ∧
    fetchFollowingFeed calmEnv aliceReq sampleDb
      = ⟨.appError "Feed post not found" 404, sampleDb,
         [Effect.findUserById 1, Effect.findPostsIn "user" [2]]⟩ :=
  ⟨by decide,
   (fetchFollowingFeed_guards calmEnv { aliceReq with userId := 9 } sampleDb).1
     (by decide),
   by decide, rfl,
   ((fetchFollowingFeed_guards calmEnv { aliceReq with userId := 4 } sampleDb).2.1
     dave (by decide) rfl).1,
   by decide, by decide,
   (fetchFollowingFeed_guards calmEnv aliceReq sampleDb).2.2 alice (by decide)
     (by decide) (by decide)⟩

/-- No stored post holds a user reference at the path `user`: with the undeclared path
kept in the filter, the query of line 255 matches nothing. -/
theorem findPostsIn_user_kept (db : Db) (ids : List Id) :
    db.findPostsIn false "user" ids = [] := by
  simp [Db.findPostsIn, Post.refAt]

/-- With the undeclared path removed from the filter, the query of line 255 matches
every stored post. -/
theorem findPostsIn_user_removed (db : Db) (ids : List Id) :
    db.findPostsIn true "user" ids = db.posts := by
  simp [Db.findPostsIn, postSchemaPaths]

/-- With the undeclared path kept in the filter, the feed of a user who follows somebody
never succeeds: it is the 404 of line 258, whatever is stored. -/
theorem fetchFollowingFeed_kept_never_succeeds (env : Env) (req : Req) (db : Db)
    (u : User) (hs : env.strictQuery = false)
    (hu : db.findUser req.userId = some u) (hf : u.following ≠ []) :
    (fetchFollowingFeed env req db).reply = .appError "Feed post not found" 404 := by
  simp [fetchFollowingFeed, hu, hf, hs, findPostsIn_user_kept, sortCreatedAtDesc]

/-- With the undeclared path removed from the filter, the feed of a user who follows
somebody lists every stored post, whoever posted it. -/
theorem fetchFollowingFeed_removed_lists_all (env : Env) (req : Req) (db : Db)
    (u : User) (hs : env.strictQuery = true)
    (hu : db.findUser req.userId = some u) (hf : u.following ≠ [])
    (hposts : db.posts ≠ []) :
    (fetchFollowingFeed env req db).reply
      = .json 200 "Feed fetched successfully."
          (.posts ((sortCreatedAtDesc db.posts).map db.populatePostedBy)) := by
  have hlen : (sortCreatedAtDesc db.posts) ≠ [] := by
    intro h
    have := congrArg List.length h
    simp [sortCreatedAtDesc, List.length_insertionSort] at this
    exact hposts this
  simp [fetchFollowingFeed, hu, hf, hs, findPostsIn_user_removed, hlen]

/-- C1, evaluated on the scenario of the spec: alice follows bob only, bob posted P1 then
P2.  The feed the claim describes, `specFeed`, is `[P2, P1]`.  The filter of line 255
names the path `user`, not `postedBy`: when the filter keeps that path the handler
answers the 404 of line 258; when the path is removed from the filter and a post of
carol, whom alice does not follow, is stored as well, the handler answers 200 and lists
the post of carol first.  In neither case is the reply the feed of the claim. -/
theorem fetchFollowingFeed_filters_on_user_path :
    scenarioDb.findUser aliceReq.userId = some alice ∧ alice.following = [2] ∧
    specFeed scenarioDb alice.following = [secondPost, firstPost] ∧
    fetchFollowingFeed calmEnv aliceReq scenarioDb
      = ⟨.appError "Feed post not found" 404, scenarioDb,
         [Effect.findUserById 1, Effect.findPostsIn "user" [2]]⟩ ∧
    specFeed sampleDb alice.following = [secondPost, firstPost] ∧
    fetchFollowingFeed calmEnv aliceReq sampleDb
      = ⟨.appError "Feed post not found" 404, sampleDb,
         [Effect.findUserById 1, Effect.findPostsIn "user" [2]]⟩ ∧
    (fetchFollowingFeed strictEnv aliceReq sampleDb).reply
      = .json 200 "Feed fetched successfully."
          (.posts [sampleDb.populatePostedBy otherPost,
                   sampleDb.populatePostedBy secondPost,
                   sampleDb.populatePostedBy firstPost]) ∧
    (∀ env : Env, (fetchFollowingFeed env aliceReq sampleDb).reply
        ≠ .json 200 "Feed fetched successfully."
            (.posts ((specFeed sampleDb alice.following).map
              sampleDb.populatePostedBy))) := by
  refine ⟨by decide, rfl, by decide, by decide, by decide, by decide, by decide, ?_⟩
  intro env
  cases hs : env.strictQuery
  · rw [fetchFollowingFeed_kept_never_succeeds env aliceReq sampleDb alice hs
      (by decide) (by decide)]
    exact fun h => Reply.noConfusion h
  · rw [fetchFollowingFeed_removed_lists_all env aliceReq sampleDb alice hs
      (by decide) (by decide) (by decide)]
    decide

/-! ## createPost with a file -/

/-- C6: a `createPost` request with content present and a file attached.  If the upload
throws, the reply is the error with status 500, the collections are returned as they
were, and the only call issued is the upload: no create and no temp-file removal.  If
the upload returns `public_id` and `secure_url`, the handler removes
`uploads/<filename>` and then issues the create with the thumbnail made of that pair;
the create resolving, the reply is 201 and the stored posts are the former ones followed
by the new post, whose thumbnail is that pair. -/
theorem createPost_with_file (env : Env) (req : Req) (db : Db) (file : UploadedFile)
    (hc : req.content.truthy = true) (hf : req.file = some file) :
    (env.upload file.path (setFolder file) (some (resourceType file)) = .throws →
      createPost env req db
        = ⟨.appError "Error while uploading thumbnail" 500, db,
           [Effect.upload file.path (setFolder file) (some (resourceType file))]⟩ ∧
      ∀ e ∈ (createPost env req db).effects, e.isWrite = false ∧ e.isRm = false) ∧
    (∀ pid url,
      env.upload file.path (setFolder file) (some (resourceType file)) = .ok pid url →
      (createPost env req db).effects
        = [Effect.upload file.path (setFolder file) (some (resourceType file)),
           Effect.rm ("uploads/" ++ file.filename),
           Effect.create req.content ⟨some pid, some url⟩ req.userId] ∧
      (env.createOk = true →
        ∃ post : Post,
          post.thumbnail = ⟨some pid, some url⟩ ∧ post.content = req.content ∧
          post.postedBy = req.userId ∧
          (createPost env req db).reply
            = .json 201 "Thank you for sharing your post." (.post post) ∧
          (createPost env req db).db.posts = db.posts ++ [post])) := by
  constructor
  · intro hup
    have h : createPost env req db
        = ⟨.appError "Error while uploading thumbnail" 500, db,
           [Effect.upload file.path (setFolder file) (some (resourceType file))]⟩ := by
      simp [createPost, hc, hf, hup]
    rw [h]
    refine ⟨rfl, ?_⟩
    intro e he
    simp only [List.mem_singleton] at he
    subst he
    exact ⟨rfl, rfl⟩
  · intro pid url hup
    constructor
    · cases hk : env.createOk <;> simp [createPost, hc, hf, hup, persistPost, hk]
    · intro hk
      refine ⟨{ id := env.newId, content := req.content, title := .undefined,
                description := .undefined, thumbnail := ⟨some pid, some url⟩,
                postedBy := req.userId, numberOfRepost := 0, comments := [],
                reactions := [], createdAt := env.now }, rfl, rfl, rfl, ?_, ?_⟩
      · simp [createPost, hc, hf, hup, persistPost, hk]
      · simp [createPost, hc, hf, hup, persistPost, hk, Db.insertPost]

/-- C6, at inputs: alice posts "hello" with a PNG attached, once with the upload
throwing and once with every call resolving. -/
theorem createPost_with_file_witness :
    (JsVal.str "hello").truthy = true ∧
    createPost uploadDownEnv { aliceReq with content := .str "hello", file := some pngFile }
        sampleDb
      = ⟨.appError "Error while uploading thumbnail" 500, sampleDb,
         [Effect.upload "uploads/a1b2" "SpeakWave_Post_Images" (some "image")]⟩ ∧
    (createPost calmEnv { aliceReq with content := .str "hello", file := some pngFile }
        sampleDb).effects
      = [Effect.upload "uploads/a1b2" "SpeakWave_Post_Images" (some "image"),
         Effect.rm "uploads/a1b2",
         Effect.create (.str "hello") ⟨some "img/new", some "https://cdn/img/new"⟩ 1] ∧
    (createPost calmEnv { aliceReq with content := .str "hello", file := some pngFile }
        sampleDb).db.posts
      = sampleDb.posts ++
          [⟨50, .str "hello", .undefined, .undefined,
            ⟨some "img/new", some "https://cdn/img/new"⟩, 1, 0, [], [], 400⟩] :=
  ⟨by decide,
   ((createPost_with_file uploadDownEnv
      { aliceReq with content := .str "hello", file := some pngFile } sampleDb pngFile
      (by decide) rfl).1 rfl).1,
   ((createPost_with_file calmEnv
      { aliceReq with content := .str "hello", file := some pngFile } sampleDb pngFile
      (by decide) rfl).2 "img/new" "https://cdn/img/new" rfl).1,
   by decide⟩

/-! ## removePost -/

/-- For every existing post `removePost` calls the media delegate with the value of
`thumbnail.public_id`, present or not, right after the lookup. -/
theorem removePost_always_destroys (env : Env) (req : Req) (db : Db) (P : Post)
    (hP : db.findPost req.id = .doc P) :
    (removePost env req db).effects.take 2
      = [Effect.findPostById req.id, Effect.destroy P.thumbnail.public_id] := by
  cases hd : env.destroy P.thumbnail.public_id <;> cases hk : env.deleteOk <;>
    simp [removePost, hP, hd, hk]

/-- C7, evaluated on P1, a post created without a file, whose thumbnail holds no
`public_id`.  `removePost` issues a media-delegate delete all the same, with an absent
`public_id`, before the document delete; and when the delegate rejects that call the
handler ends there, with P1 still stored. -/
theorem removePost_destroys_absent_thumbnail :
    firstPost.thumbnail.public_id = none ∧
    sampleDb.findPost aliceReq.id = .doc firstPost ∧
    removePost calmEnv aliceReq sampleDb
      = ⟨.json 200 "Post deleted successfully." .none, sampleDb.deletePost 10,
         [Effect.findPostById 10, Effect.destroy none, Effect.findByIdAndDelete 10]⟩ ∧
    removePost pickyEnv aliceReq sampleDb
      = ⟨.uncaught, sampleDb, [Effect.findPostById 10, Effect.destroy none]⟩ := by
  refine ⟨rfl, by decide, by decide, by decide⟩

/-! ## editPost -/

/-- C8: an `editPost` request on an existing post with a file attached, whatever title
and description it carries.  If the media delegate fails, on the delete of the old asset
or on the upload of the new one, the reply is the error with status 500, the collections
are returned as they were, so the stored post, with its title, description and
thumbnail, is the one of before, and none of the calls issued is a write. -/
theorem editPost_media_failure (env : Env) (req : Req) (db : Db) (P : Post)
    (file : UploadedFile)
    (hP : db.findPost req.id = .doc P) (hf : req.file = some file)
    (hfail : env.destroy P.thumbnail.public_id = false ∨
      env.upload file.path "SpeakWave_Posts" none = .throws) :
    (editPost env req db).reply
      = .appError "Error while uploading post thumbnail" 500 ∧
    (editPost env req db).db = db ∧
    (editPost env req db).db.findPost req.id = .doc P ∧
    (∀ e ∈ (editPost env req db).effects, e.isWrite = false) := by
  have key : (editPost env req db).reply
        = .appError "Error while uploading post thumbnail" 500 ∧
      (editPost env req db).db = db ∧
      (∀ e ∈ (editPost env req db).effects, e.isWrite = false) := by
    cases ht : req.title.truthy <;> cases hd : req.description.truthy <;>
      cases hdes : env.destroy P.thumbnail.public_id <;>
      rcases hfail with hfail | hfail <;>
      simp_all [editPost, Effect.isWrite]
  exact ⟨key.1, key.2.1, by rw [key.2.1]; exact hP, key.2.2⟩

/-- C8, at inputs: alice edits P2 with a new title and a file and the upload throws;
alice edits P1, which has no asset, with a file and the delegate rejects the delete. -/
theorem editPost_media_failure_witness :
    sampleDb.findPost 11 = .doc secondPost ∧
    uploadDownEnv.upload pngFile.path "SpeakWave_Posts" none = .throws ∧
    (editPost uploadDownEnv
        { aliceReq with id := 11, title := .str "new title", file := some pngFile }
        sampleDb).reply = .appError "Error while uploading post thumbnail" 500 ∧
    (editPost uploadDownEnv
        { aliceReq with id := 11, title := .str "new title", file := some pngFile }
        sampleDb).db.findPost 11 = .doc secondPost ∧
    sampleDb.findPost 10 = .doc firstPost ∧
    pickyEnv.destroy firstPost.thumbnail.public_id = false ∧
    (editPost pickyEnv { aliceReq with description := .str "d", file := some pngFile }
        sampleDb).db = sampleDb :=
  ⟨by decide, rfl,
   (editPost_media_failure uploadDownEnv
      { aliceReq with id := 11, title := .str "new title", file := some pngFile } sampleDb
      secondPost pngFile (by decide) rfl (Or.inr rfl)).1,
   (editPost_media_failure uploadDownEnv
      { aliceReq with id := 11, title := .str "new title", file := some pngFile } sampleDb
      secondPost pngFile (by decide) rfl (Or.inr rfl)).2.2.1,
   by decide, rfl,
   (editPost_media_failure pickyEnv
      { aliceReq with description := .str "d", file := some pngFile } sampleDb
      firstPost pngFile (by decide) rfl (Or.inl rfl)).2.1⟩

end Threads
